import Mathlib

/-!
Verification of `src/entity_extraction.py`.

The script batch-processes product records: for each record it builds a
prompt from the record's `description` and `care_instructions` fields,
invokes the Mistral completion service up to 3 times, parses the returned
text as JSON, and emits the record augmented with either the parsed
mapping, a `raw_output` field, or an `error` field.

Shallow embedding choices:
* A Python dict is an association list `Record` in insertion order with
  unique keys; `{**a, **b}` is `mergeRecords a b` (copy `a`, then insert
  `b`'s items in order, overwriting in place), `{**a, "k": v}` is
  `dictInsert a "k" v`.
* The completion service together with the result of `json.loads` on the
  whitespace-stripped response text is abstracted as an oracle
  `String → Nat → AttemptOutcome` (prompt and attempt index to outcome):
  the text may strip+parse to a JSON object, to valid JSON that is not an
  object (in which case Python's `{**entry, **extracted}` raises a
  `TypeError` that the surrounding `except Exception` catches), fail to
  parse (`json.JSONDecodeError`), or the API call itself may raise with a
  message string.
* Side effects (API invocations and `time.sleep`) are recorded as an
  explicit event trace; the diagnostic `print` per failed attempt is
  observability only and is not modelled.
-/

/-- A JSON-like Python value, as produced by `json.loads` and stored in
records. -/
inductive Value where
  | str (s : String)
  | int (n : Int)
  | float (q : Int)
  | bool (b : Bool)
  | null
  | list (xs : List Value)
  | obj (fields : List (String × Value))

/-- A Python dict with string keys, in insertion order. -/
abbrev Record := List (String × Value)

/-- First-match lookup, `r.get(k)` / `r[k]` on a dict (keys are unique in
any dict the script builds, so first match is the match). -/
def lookupField (r : Record) (k : String) : Option Value :=
  match r with
  | [] => none
  | (k', v) :: rest => if k' == k then some v else lookupField rest k

/-- `k in r` for a Python dict. -/
def hasKey (r : Record) (k : String) : Bool :=
  r.any fun p => p.1 == k

/-- `d[k] = v` on a dict: overwrite in place if the key is present
(insertion order of an existing key is kept), else append. -/
def dictInsert (r : Record) (k : String) (v : Value) : Record :=
  if hasKey r k then r.map fun p => if p.1 == k then (k, v) else p
  else r ++ [(k, v)]

/-- Python `{**a, **b}`: copy `a`, then insert each item of `b` in order. -/
def mergeRecords (a b : Record) : Record :=
  b.foldl (fun acc p => dictInsert acc p.1 p.2) a

/-- Python substring test `pat in s`. -/
def pyIn (pat s : String) : Bool :=
  decide (pat.data <:+: s.data)

/-- The Python type of a `json.loads` result that is valid JSON but not an
object, i.e. not a dict. -/
inductive PyKind where
  | int
  | float
  | str
  | list
  | bool
  | nonetype

/-- `type(x).__name__` for the non-dict parse results. -/
def PyKind.typeName : PyKind → String
  | .int => "int"
  | .float => "float"
  | .str => "str"
  | .list => "list"
  | .bool => "bool"
  | .nonetype => "NoneType"

/-- `str(e)` for the `TypeError` raised by `{**entry, **extracted}` when
`extracted` is not a mapping. -/
def typeErrorMsg (k : PyKind) : String :=
  "'" ++ k.typeName ++ "' object is not a mapping"

/-- Outcome of one `client.chat.complete` attempt, with the parse result of
the whitespace-stripped response text folded in:
* `returnedObject parsed stripped`: the call returned text whose stripped
  form parses as the JSON object `parsed`;
* `returnedNonObjectJson kind stripped`: the stripped text parses as valid
  JSON of non-object Python type `kind`;
* `returnedNonJson stripped`: the stripped text raises
  `json.JSONDecodeError`;
* `raisedError msg`: the call raised an exception with `str(e) = msg`. -/
inductive AttemptOutcome where
  | returnedObject (parsed : Record) (stripped : String)
  | returnedNonObjectJson (kind : PyKind) (stripped : String)
  | returnedNonJson (stripped : String)
  | raisedError (msg : String)

/-- Observable side effects of the loop: one `invoke` per
`client.chat.complete` call, one `sleep n` per `time.sleep(n)`. -/
inductive Event where
  | invoke
  | sleep (seconds : Nat)

/-- Number of service invocations recorded in a trace. -/
def invocationCount (evs : List Event) : Nat :=
  evs.countP fun e => match e with
    | Event.invoke => true
    | _ => false

/-! ## Prompt construction (`build_prompt`, lines 40-109) -/

/-- The `\"\"\"` delimiter around the interpolated texts. -/
def tripleQuote : String := "\"\"\""

/-- Prompt text before the first delimiter. -/
def promptHead : String :=
  "\nYou are an expert product data annotator. Extract the following attributes from the product description and care instructions. Return them as a valid JSON object with these keys:\n\nProduct Attributes:\n- Product Type\n- Support/Wiring\n- Closures\n- Neckline design\n- Waist Style\n- Design Features\n- Intended Use / Function\n- Length\n\nCare Attributes:\n- Washing Instructions\n- Drying Method\n- Bleach Instructions\n- Dry Cleaning\n- Ironing Instructions\n\nOnly include values that are mentioned or strongly implied. If something is missing, use \"Not Available\".\n\nProduct Description:\n"

/-- Prompt text between the description and the care instructions. -/
def promptMid : String := "\n\nCare Instructions:\n"

/-- The closing instruction line of the prompt. -/
def jsonOnlyInstruction : String := "Only return valid JSON. No explanation."

/-- Prompt text after the last delimiter. -/
def promptTail : String := "\n\n" ++ jsonOnlyInstruction ++ "\n"

/-- `build_prompt(description, care_instructions)`: the f-string of lines
80-109, both inputs interpolated verbatim between `\"\"\"` delimiters. -/
def build_prompt (description care_instructions : String) : String :=
  promptHead ++ tripleQuote ++ description ++ tripleQuote ++ promptMid ++
    tripleQuote ++ care_instructions ++ tripleQuote ++ promptTail

/-- `sub` occurs verbatim inside `s`. -/
def containsText (s sub : String) : Prop :=
  ∃ a b, s = a ++ (sub ++ b)

/-! ## The extraction loop (`extract_entities`, lines 112-182) -/

/-- Python `str(x)` as used by the f-string when a looked-up field is not a
string. Only the `str` and missing cases are exercised by this script's
input data and by the theorems below; container renderings are
abbreviated. -/
def pyStr : Value → String
  | .str s => s
  | .int n => toString n
  | .float q => toString q
  | .bool true => "True"
  | .bool false => "False"
  | .null => "None"
  | .list _ => "<list>"
  | .obj _ => "<dict>"

/-- `entry.get(k, "")` rendered to the string the f-string interpolates:
missing fields become the empty string (lines 156-157). -/
def strField (r : Record) (k : String) : String :=
  match lookupField r k with
  | some v => pyStr v
  | none => ""

/-- The prompt built for a record (line 158). -/
def entryPrompt (entry : Record) : String :=
  build_prompt (strField entry "description") (strField entry "care_instructions")

/-- The `except Exception` handler of lines 173-181, classifying
`error_msg`: `"429" in error_msg` sleeps 5 seconds and continues with
`rest`; `"401" in error_msg` returns the unauthorized error record; any
other message returns the generic API error record. -/
def handleFailure (entry : Record) (rest : Record × List Event) (msg : String) :
    Record × List Event :=
  if pyIn "429" msg then (rest.1, Event.invoke :: Event.sleep 5 :: rest.2)
  else if pyIn "401" msg then
    (dictInsert entry "error" (Value.str "Unauthorized. Check your API key."), [Event.invoke])
  else
    (dictInsert entry "error" (Value.str ("API error: " ++ msg)), [Event.invoke])

/-- The `for attempt in range(3)` loop of lines 160-182, from attempt index
`attempt` with `fuel` iterations left. Exhausting the loop returns the
record with the `"All attempts failed"` error field (line 182). A returned
JSON object is merged and returned at once (line 170); non-JSON text
returns the `raw_output` record at once (line 172); valid non-object JSON
makes the merge of line 170 raise a `TypeError` that the outer
`except Exception` catches, so it is classified like any other error
message. -/
def extractGo (entry : Record) (beh : Nat → AttemptOutcome) :
    Nat → Nat → Record × List Event
  | _, 0 => (dictInsert entry "error" (Value.str "All attempts failed"), [])
  | attempt, fuel + 1 =>
    match beh attempt with
    | .returnedObject parsed _ => (mergeRecords entry parsed, [Event.invoke])
    | .returnedNonJson stripped =>
        (dictInsert entry "raw_output" (Value.str stripped), [Event.invoke])
    | .returnedNonObjectJson kind _ =>
        handleFailure entry (extractGo entry beh (attempt + 1) fuel) (typeErrorMsg kind)
    | .raisedError msg =>
        handleFailure entry (extractGo entry beh (attempt + 1) fuel) msg

/-- `extract_entities(entry)` (lines 112-182): build the prompt, then run
the 3-attempt loop against the service oracle `svc`, returning the
augmented record and the trace of invocations and sleeps. -/
def extract_entities (entry : Record) (svc : String → Nat → AttemptOutcome) :
    Record × List Event :=
  extractGo entry (svc (entryPrompt entry)) 0 3

/-! ## The batch driver (line 185) -/

/-- The list comprehension, record `i` processed with service behaviour
`svcs i`, sequentially and in order. -/
def outputGo (svcs : Nat → String → Nat → AttemptOutcome) :
    Nat → List Record → List Record
  | _, [] => []
  | i, e :: rest => (extract_entities e (svcs i)).1 :: outputGo svcs (i + 1) rest

/-- `output_data = [extract_entities(entry) for entry in input_data]`
(line 185). -/
def output_data (input : List Record) (svcs : Nat → String → Nat → AttemptOutcome) :
    List Record :=
  outputGo svcs 0 input

/-! ## The record delta produced by one run of the loop

Every branch of `extract_entities` returns `{**entry, **delta}` for a
delta that does not depend on `entry`; `extractDeltaGo` computes it. -/

/-- Delta of the error handler: retrying yields the continuation's delta,
the terminal branches yield a single `error` item. -/
def failureDelta (rest : Record) (msg : String) : Record :=
  if pyIn "429" msg then rest
  else if pyIn "401" msg then
    [("error", Value.str "Unauthorized. Check your API key.")]
  else
    [("error", Value.str ("API error: " ++ msg))]

/-- The mapping merged over `entry` by `extractGo`. -/
def extractDeltaGo (beh : Nat → AttemptOutcome) : Nat → Nat → Record
  | _, 0 => [("error", Value.str "All attempts failed")]
  | attempt, fuel + 1 =>
    match beh attempt with
    | .returnedObject parsed _ => parsed
    | .returnedNonJson stripped => [("raw_output", Value.str stripped)]
    | .returnedNonObjectJson kind _ =>
        failureDelta (extractDeltaGo beh (attempt + 1) fuel) (typeErrorMsg kind)
    | .raisedError msg =>
        failureDelta (extractDeltaGo beh (attempt + 1) fuel) msg

/-- The mapping merged over `entry` by `extract_entities`. -/
def extractDelta (entry : Record) (svc : String → Nat → AttemptOutcome) : Record :=
  extractDeltaGo (svc (entryPrompt entry)) 0 3

/-! ## Dictionary lemmas -/

lemma mergeRecords_cons (a : Record) (p : String × Value) (b : Record) :
    mergeRecords a (p :: b) = mergeRecords (dictInsert a p.1 p.2) b := rfl

lemma mergeRecords_singleton (a : Record) (k : String) (v : Value) :
    mergeRecords a [(k, v)] = dictInsert a k v := rfl

lemma hasKey_dictInsert_of (a : Record) (k k' : String) (v : Value)
    (h : hasKey a k = true) : hasKey (dictInsert a k' v) k = true := by
  unfold dictInsert
  split
  · simp only [hasKey, List.any_map, List.any_eq_true, Function.comp_apply] at h ⊢
    obtain ⟨p, hp, hpk⟩ := h
    refine ⟨p, hp, ?_⟩
    by_cases hq : (p.1 == k') = true
    · simp only [hq, if_true]
      have h1 : p.1 = k' := by simpa using hq
      have h2 : p.1 = k := by simpa using hpk
      exact beq_iff_eq.mpr (h1.symm.trans h2)
    · simp [hq, hpk]
  · simp only [hasKey, List.any_append, Bool.or_eq_true]
    exact Or.inl (by simpa [hasKey] using h)

lemma lookupField_mapOverwrite (a : Record) (k k' : String) (v : Value)
    (hne : k' ≠ k) :
    lookupField (a.map fun p => if p.1 == k' then (k', v) else p) k =
      lookupField a k := by
  induction a with
  | nil => rfl
  | cons p rest ih =>
    rw [List.map_cons]
    by_cases hq : (p.1 == k') = true
    · rw [if_pos hq]
      have h1 : p.1 = k' := by simpa using hq
      have hkk : ¬((k' == k) = true) := by simpa using hne
      have hpk : ¬((p.1 == k) = true) := by rw [h1]; exact hkk
      simp only [lookupField]
      rw [if_neg hkk, if_neg hpk]
      exact ih
    · rw [if_neg hq]
      simp only [lookupField]
      split
      · rfl
      · exact ih

lemma lookupField_append_single_ne (a : Record) (k k' : String) (v : Value)
    (hne : k' ≠ k) :
    lookupField (a ++ [(k', v)]) k = lookupField a k := by
  induction a with
  | nil =>
    have hk'k : (k' == k) = false := by simpa using hne
    simp [lookupField, hk'k]
  | cons p rest ih =>
    rw [List.cons_append]
    simp only [lookupField]
    by_cases hpk : (p.1 == k) = true
    · simp [hpk]
    · simp [hpk, ih]

lemma lookupField_dictInsert_ne (a : Record) (k k' : String) (v : Value)
    (hne : k' ≠ k) : lookupField (dictInsert a k' v) k = lookupField a k := by
  unfold dictInsert
  split
  · exact lookupField_mapOverwrite a k k' v hne
  · exact lookupField_append_single_ne a k k' v hne

lemma hasKey_mergeRecords_left (a b : Record) (k : String)
    (h : hasKey a k = true) : hasKey (mergeRecords a b) k = true := by
  induction b generalizing a with
  | nil => exact h
  | cons p rest ih =>
    rw [mergeRecords_cons]
    exact ih _ (hasKey_dictInsert_of a k p.1 p.2 h)

lemma lookupField_mergeRecords_of_notKey (a b : Record) (k : String)
    (h : hasKey b k = false) : lookupField (mergeRecords a b) k = lookupField a k := by
  induction b generalizing a with
  | nil => rfl
  | cons p rest ih =>
    simp only [hasKey, List.any_cons, Bool.or_eq_false_iff] at h
    rw [mergeRecords_cons]
    have hrest : hasKey rest k = false := h.2
    have hne : p.1 ≠ k := by
      intro hcontra
      simp [hcontra] at h
    rw [ih _ hrest, lookupField_dictInsert_ne a k p.1 p.2 hne]

/-! ## Decomposition: every branch returns a merge over the input record -/

lemma handleFailure_fst (entry : Record) (rest : Record × List Event)
    (d : Record) (msg : String) (hrest : rest.1 = mergeRecords entry d) :
    (handleFailure entry rest msg).1 = mergeRecords entry (failureDelta d msg) := by
  unfold handleFailure failureDelta
  by_cases h429 : pyIn "429" msg = true
  · simp [h429, hrest]
  · by_cases h401 : pyIn "401" msg = true
    · simp [h429, h401, mergeRecords_singleton]
    · simp [h429, h401, mergeRecords_singleton]

lemma extractGo_fst (entry : Record) (beh : Nat → AttemptOutcome)
    (attempt fuel : Nat) :
    (extractGo entry beh attempt fuel).1 =
      mergeRecords entry (extractDeltaGo beh attempt fuel) := by
  induction fuel generalizing attempt with
  | zero => simp [extractGo, extractDeltaGo, mergeRecords_singleton]
  | succ fuel ih =>
    unfold extractGo extractDeltaGo
    cases beh attempt with
    | returnedObject parsed stripped => rfl
    | returnedNonJson stripped => simp [mergeRecords_singleton]
    | returnedNonObjectJson kind stripped =>
      exact handleFailure_fst entry _ _ _ (ih (attempt + 1))
    | raisedError msg =>
      exact handleFailure_fst entry _ _ _ (ih (attempt + 1))

lemma extract_entities_fst (entry : Record) (svc : String → Nat → AttemptOutcome) :
    (extract_entities entry svc).1 = mergeRecords entry (extractDelta entry svc) :=
  extractGo_fst entry (svc (entryPrompt entry)) 0 3

lemma hasKey_of_lookupField (r : Record) (k : String) (v : Value)
    (h : lookupField r k = some v) : hasKey r k = true := by
  induction r with
  | nil => cases h
  | cons p rest ih =>
    simp only [lookupField] at h
    simp only [hasKey, List.any_cons, Bool.or_eq_true]
    by_cases hq : (p.1 == k) = true
    · exact Or.inl hq
    · rw [if_neg hq] at h
      exact Or.inr (ih h)

/-! ## Batch driver lemmas -/

lemma outputGo_length (svcs : Nat → String → Nat → AttemptOutcome) :
    ∀ (l : List Record) (j : Nat), (outputGo svcs j l).length = l.length := by
  intro l
  induction l with
  | nil => intro j; rfl
  | cons e rest ih =>
    intro j
    simp only [outputGo, List.length_cons, ih (j + 1)]

lemma outputGo_getElem (svcs : Nat → String → Nat → AttemptOutcome) :
    ∀ (l : List Record) (j i : Nat),
      (outputGo svcs j l)[i]? =
        (l[i]?).map fun e => (extract_entities e (svcs (j + i))).1 := by
  intro l
  induction l with
  | nil => intro j i; simp [outputGo]
  | cons e rest ih =>
    intro j i
    cases i with
    | zero => simp [outputGo]
    | succ i =>
      simp only [outputGo, List.getElem?_cons_succ]
      rw [ih (j + 1) i]
      have harith : j + 1 + i = j + (i + 1) := by omega
      rw [harith]

/-! ## Claims -/

/-- The literal reading of claim C1: every original field is present *and
unchanged* (same value) in the output record, over all branches. -/
def c1Original : Prop :=
  ∀ (entry : Record) (svc : String → Nat → AttemptOutcome) (k : String) (v : Value),
    lookupField entry k = some v →
    lookupField (extract_entities entry svc).1 k = some v

/-- C1 fails as stated: the input record `{"error": "old"}` processed
against a service that raises a generic error gets its pre-existing
`error` field overwritten with `"API error: boom"`. -/
theorem c1_counterexample : ¬ c1Original := by
  intro h
  have h2 := h [("error", Value.str "old")]
      (fun _ _ => AttemptOutcome.raisedError "boom") "error" (Value.str "old") rfl
  have h3 : lookupField (extract_entities [("error", Value.str "old")]
      (fun _ _ => AttemptOutcome.raisedError "boom")).1 "error"
      = some (Value.str "API error: boom") := rfl
  rw [h3] at h2
  have h4 := Option.some.inj h2
  injection h4 with h5
  exact absurd h5 (by decide)

/-- C1 (amended): for every input record and service behaviour, every
original key is still present in the output record, and an original
field's value is unchanged whenever its key is not among the keys the
producing branch merges in (the keys of `extractDelta`: the parsed
mapping's keys on success, `raw_output` on parse failure, `error` on the
error and exhausted-retries branches). -/
theorem c1_amended_fields_preserved (entry : Record)
    (svc : String → Nat → AttemptOutcome) (k : String) (v : Value)
    (h : lookupField entry k = some v) :
    hasKey (extract_entities entry svc).1 k = true
    ∧ (hasKey (extractDelta entry svc) k = false →
        lookupField (extract_entities entry svc).1 k = some v) := by
  constructor
  · rw [extract_entities_fst]
    exact hasKey_mergeRecords_left _ _ _ (hasKey_of_lookupField entry k v h)
  · intro hd
    rw [extract_entities_fst, lookupField_mergeRecords_of_notKey _ _ _ hd]
    exact h

/-- C1 witness: a concrete field `"a"` survives unchanged through the
parse-failure branch. -/
theorem c1_witness :
    hasKey (extract_entities [("a", Value.str "x")]
      (fun _ _ => AttemptOutcome.returnedNonJson "oops")).1 "a" = true
    ∧ lookupField (extract_entities [("a", Value.str "x")]
      (fun _ _ => AttemptOutcome.returnedNonJson "oops")).1 "a"
      = some (Value.str "x") := by
  have h := c1_amended_fields_preserved [("a", Value.str "x")]
      (fun _ _ => AttemptOutcome.returnedNonJson "oops") "a" (Value.str "x") rfl
  exact ⟨h.1, h.2 rfl⟩

/-- C2: for every input sequence and every service behaviour the batch
produces exactly one output entry per input entry, and `extract_entities`
returns normally for any text the service returns — in particular valid
JSON text whose parse result is not an object does not escape as an
exception: the `TypeError` raised by the merge is caught by the outer
`except Exception` and surfaces as a generic API-error field. (The loop is
a total function of the oracle by construction, so no modelled behaviour
can raise.) -/
theorem c2_batch_total (input : List Record)
    (svcs : Nat → String → Nat → AttemptOutcome) :
    (output_data input svcs).length = input.length
    ∧ ∀ (entry : Record) (svc : String → Nat → AttemptOutcome)
        (kind : PyKind) (stripped : String),
        svc (entryPrompt entry) 0 = AttemptOutcome.returnedNonObjectJson kind stripped →
        extract_entities entry svc
          = (dictInsert entry "error" (Value.str ("API error: " ++ typeErrorMsg kind)),
             [Event.invoke]) := by
  constructor
  · exact outputGo_length svcs input 0
  · intro entry svc kind stripped h
    have h429 : pyIn "429" (typeErrorMsg kind) = false := by cases kind <;> decide
    have h401 : pyIn "401" (typeErrorMsg kind) = false := by cases kind <;> decide
    simp [extract_entities, extractGo, handleFailure, h, h429, h401]

/-- C2 witness: a one-record batch yields one output record, and a service
returning the valid non-object JSON text `"3"` yields a normal API-error
record. -/
theorem c2_witness :
    (output_data [[("a", Value.str "x")]]
      (fun _ _ _ => AttemptOutcome.returnedNonJson "t")).length = 1
    ∧ extract_entities []
        (fun _ _ => AttemptOutcome.returnedNonObjectJson PyKind.int "3")
      = (dictInsert [] "error"
          (Value.str ("API error: " ++ typeErrorMsg PyKind.int)), [Event.invoke]) := by
  refine ⟨(c2_batch_total [[("a", Value.str "x")]]
      (fun _ _ _ => AttemptOutcome.returnedNonJson "t")).1, ?_⟩
  exact (c2_batch_total [] (fun _ _ _ => AttemptOutcome.returnedNonJson "t")).2
    [] (fun _ _ => AttemptOutcome.returnedNonObjectJson PyKind.int "3")
    PyKind.int "3" rfl

/-- Whether an attempt outcome is response text that strips and parses as
valid JSON (a JSON object or any other JSON value). -/
def validJsonOutcome : AttemptOutcome → Bool
  | .returnedObject _ _ => true
  | .returnedNonObjectJson _ _ => true
  | .returnedNonJson _ => false
  | .raisedError _ => false

/-- The literal reading of claim C3: whenever the first response strips to
valid JSON text, the parse result is a mapping and the returned record is
exactly that mapping merged over the original record, with no further
attempts. -/
def c3Original : Prop :=
  ∀ (entry : Record) (svc : String → Nat → AttemptOutcome),
    validJsonOutcome (svc (entryPrompt entry) 0) = true →
    ∃ parsed stripped,
      svc (entryPrompt entry) 0 = AttemptOutcome.returnedObject parsed stripped
      ∧ extract_entities entry svc = (mergeRecords entry parsed, [Event.invoke])

/-- C3 fails as stated: the text `"3"` is valid JSON but its parse result
is not a mapping, so there is no parsed mapping to merge (the code instead
produces an API-error record via the caught `TypeError`). -/
theorem c3_counterexample : ¬ c3Original := by
  intro h
  obtain ⟨p, s, heq, -⟩ :=
    h [] (fun _ _ => AttemptOutcome.returnedNonObjectJson PyKind.int "3") rfl
  cases heq

/-- C3 (amended): if the first response strips and parses as a JSON
*object*, `extract_entities` returns immediately after one invocation and
its result is exactly the parsed mapping's keys/values merged over the
original record; valid JSON whose parse result is not an object instead
produces an API-error field. -/
theorem c3_amended_object_merged (entry : Record)
    (svc : String → Nat → AttemptOutcome) (parsed : Record) (stripped : String)
    (h : svc (entryPrompt entry) 0 = AttemptOutcome.returnedObject parsed stripped) :
    extract_entities entry svc = (mergeRecords entry parsed, [Event.invoke]) := by
  simp [extract_entities, extractGo, h]

/-- C3 witness: a concrete object response is merged over the record after
a single invocation. -/
theorem c3_witness :
    extract_entities [("a", Value.str "x")]
      (fun _ _ => AttemptOutcome.returnedObject [("b", Value.int 2)] "t")
      = (mergeRecords [("a", Value.str "x")] [("b", Value.int 2)], [Event.invoke]) :=
  c3_amended_object_merged [("a", Value.str "x")]
    (fun _ _ => AttemptOutcome.returnedObject [("b", Value.int 2)] "t")
    [("b", Value.int 2)] "t" rfl

/-- C4: if every one of the 3 attempts raises an error whose message
contains `"429"`, `extract_entities` returns the input record augmented
with the `"All attempts failed"` error field, the service is invoked
exactly 3 times, and a 5-second sleep follows each rate-limited attempt
(so in particular one sleep sits between consecutive attempts). -/
theorem c4_rate_limited_exhaustion (entry : Record)
    (svc : String → Nat → AttemptOutcome)
    (h : ∀ i, i < 3 → ∃ msg, svc (entryPrompt entry) i = AttemptOutcome.raisedError msg
          ∧ pyIn "429" msg = true) :
    extract_entities entry svc
      = (dictInsert entry "error" (Value.str "All attempts failed"),
         [Event.invoke, Event.sleep 5, Event.invoke, Event.sleep 5,
          Event.invoke, Event.sleep 5])
    ∧ invocationCount (extract_entities entry svc).2 = 3 := by
  obtain ⟨m0, h0, p0⟩ := h 0 (by omega)
  obtain ⟨m1, h1, p1⟩ := h 1 (by omega)
  obtain ⟨m2, h2, p2⟩ := h 2 (by omega)
  have hmain : extract_entities entry svc
      = (dictInsert entry "error" (Value.str "All attempts failed"),
         [Event.invoke, Event.sleep 5, Event.invoke, Event.sleep 5,
          Event.invoke, Event.sleep 5]) := by
    simp [extract_entities, extractGo, handleFailure, h0, h1, h2, p0, p1, p2]
  refine ⟨hmain, ?_⟩
  rw [hmain]
  rfl

/-- C4 witness: three consecutive `"status 429"` failures on a concrete
record. -/
theorem c4_witness :
    extract_entities [("a", Value.str "x")]
      (fun _ _ => AttemptOutcome.raisedError "status 429")
      = (dictInsert [("a", Value.str "x")] "error" (Value.str "All attempts failed"),
         [Event.invoke, Event.sleep 5, Event.invoke, Event.sleep 5,
          Event.invoke, Event.sleep 5])
    ∧ invocationCount (extract_entities [("a", Value.str "x")]
        (fun _ _ => AttemptOutcome.raisedError "status 429")).2 = 3 :=
  c4_rate_limited_exhaustion [("a", Value.str "x")]
    (fun _ _ => AttemptOutcome.raisedError "status 429")
    (fun i _ => ⟨"status 429", rfl, by decide⟩)

/-- C5: if the first response strips to text that is not valid JSON,
`extract_entities` returns immediately after exactly one invocation with
the input record augmented with `raw_output` holding the stripped text,
and nothing else added. -/
theorem c5_parse_failure_raw_output (entry : Record)
    (svc : String → Nat → AttemptOutcome) (stripped : String)
    (h : svc (entryPrompt entry) 0 = AttemptOutcome.returnedNonJson stripped) :
    extract_entities entry svc
      = (dictInsert entry "raw_output" (Value.str stripped), [Event.invoke]) := by
  simp [extract_entities, extractGo, h]

/-- C5 witness: a concrete non-JSON response. -/
theorem c5_witness :
    extract_entities [("a", Value.str "x")]
      (fun _ _ => AttemptOutcome.returnedNonJson "not json")
      = (dictInsert [("a", Value.str "x")] "raw_output" (Value.str "not json"),
         [Event.invoke]) :=
  c5_parse_failure_raw_output [("a", Value.str "x")]
    (fun _ _ => AttemptOutcome.returnedNonJson "not json") "not json" rfl

/-- C6: a first-attempt failure whose message does not contain `"429"`
terminates immediately after one invocation: a message containing `"401"`
yields the invalid-credential error field, any other message yields the
generic API-error field with the error detail. -/
theorem c6_non_retryable_errors (entry : Record)
    (svc : String → Nat → AttemptOutcome) (msg : String)
    (h : svc (entryPrompt entry) 0 = AttemptOutcome.raisedError msg)
    (h429 : pyIn "429" msg = false) :
    (pyIn "401" msg = true →
      extract_entities entry svc
        = (dictInsert entry "error" (Value.str "Unauthorized. Check your API key."),
           [Event.invoke]))
    ∧ (pyIn "401" msg = false →
      extract_entities entry svc
        = (dictInsert entry "error" (Value.str ("API error: " ++ msg)),
           [Event.invoke])) := by
  constructor <;> intro h401 <;>
    simp [extract_entities, extractGo, handleFailure, h, h429, h401]

/-- C6 witness: a concrete `401` message and a concrete other message. -/
theorem c6_witness :
    extract_entities [] (fun _ _ => AttemptOutcome.raisedError "HTTP 401 bad key")
      = (dictInsert [] "error" (Value.str "Unauthorized. Check your API key."),
         [Event.invoke])
    ∧ extract_entities [] (fun _ _ => AttemptOutcome.raisedError "connection reset")
      = (dictInsert [] "error" (Value.str ("API error: " ++ "connection reset")),
         [Event.invoke]) :=
  ⟨(c6_non_retryable_errors [] (fun _ _ => AttemptOutcome.raisedError "HTTP 401 bad key")
      "HTTP 401 bad key" rfl (by decide)).1 (by decide),
   (c6_non_retryable_errors [] (fun _ _ => AttemptOutcome.raisedError "connection reset")
      "connection reset" rfl (by decide)).2 (by decide)⟩

/-- C7: for every record the prompt is built from its `description` and
`care_instructions` fields with missing fields rendered as empty strings,
and the built prompt contains the description text verbatim inside the
`\"\"\"` delimiters together with the instruction to return valid JSON
only; in particular the prompt for description `"100% cotton"` and empty
care instructions contains both the literal description text and the
JSON-only instruction. -/
theorem c7_prompt_construction (entry : Record) :
    entryPrompt entry
        = build_prompt (strField entry "description") (strField entry "care_instructions")
    ∧ (lookupField entry "description" = none → strField entry "description" = "")
    ∧ (lookupField entry "care_instructions" = none →
        strField entry "care_instructions" = "")
    ∧ containsText (entryPrompt entry)
        (tripleQuote ++ (strField entry "description" ++ tripleQuote))
    ∧ containsText (entryPrompt entry) jsonOnlyInstruction
    ∧ containsText (build_prompt "100% cotton" "") "100% cotton"
    ∧ containsText (build_prompt "100% cotton" "") jsonOnlyInstruction := by
  refine ⟨rfl, ?_, ?_, ?_, ?_, ?_, ?_⟩
  · intro h
    simp [strField, h]
  · intro h
    simp [strField, h]
  · exact ⟨promptHead,
      promptMid ++ tripleQuote ++ strField entry "care_instructions"
        ++ tripleQuote ++ promptTail,
      by simp only [entryPrompt, build_prompt, String.append_assoc]⟩
  · exact ⟨promptHead ++ tripleQuote ++ strField entry "description" ++ tripleQuote
        ++ promptMid ++ tripleQuote ++ strField entry "care_instructions"
        ++ tripleQuote ++ "\n\n", "\n",
      by simp only [entryPrompt, build_prompt, promptTail, String.append_assoc]⟩
  · exact ⟨promptHead ++ tripleQuote,
      tripleQuote ++ promptMid ++ tripleQuote ++ "" ++ tripleQuote ++ promptTail,
      by simp only [build_prompt, String.append_assoc]⟩
  · exact ⟨promptHead ++ tripleQuote ++ "100% cotton" ++ tripleQuote ++ promptMid
        ++ tripleQuote ++ "" ++ tripleQuote ++ "\n\n", "\n",
      by simp only [build_prompt, promptTail, String.append_assoc]⟩

/-- C7 witness: the missing-field implication discharged on the empty
record, together with the concrete example containments. -/
theorem c7_witness :
    strField ([] : Record) "description" = ""
    ∧ containsText (build_prompt "100% cotton" "") "100% cotton"
    ∧ containsText (build_prompt "100% cotton" "") jsonOnlyInstruction :=
  ⟨(c7_prompt_construction []).2.1 rfl,
   (c7_prompt_construction []).2.2.2.2.2.1,
   (c7_prompt_construction []).2.2.2.2.2.2⟩

/-- C8: the batch driver maps an input sequence to an output sequence of
the same length, in the same order: entry `i` of the output is exactly
`extract_entities` applied to entry `i` of the input with that record's
own service behaviour, each record processed independently of the
others. -/
theorem c8_batch_order (input : List Record)
    (svcs : Nat → String → Nat → AttemptOutcome) :
    (output_data input svcs).length = input.length
    ∧ ∀ (i : Nat) (h : i < input.length),
        (output_data input svcs)[i]?
          = some (extract_entities (input.get ⟨i, h⟩) (svcs i)).1 := by
  refine ⟨outputGo_length svcs input 0, ?_⟩
  intro i h
  rw [output_data, outputGo_getElem svcs input 0 i]
  rw [List.getElem?_eq_getElem h]
  simp

/-- C8 witness: a concrete two-record batch, second record inspected. -/
theorem c8_witness :
    (output_data [[("a", Value.str "x")], [("b", Value.str "y")]]
      (fun _ _ _ => AttemptOutcome.returnedNonJson "t")).length = 2
    ∧ (output_data [[("a", Value.str "x")], [("b", Value.str "y")]]
        (fun _ _ _ => AttemptOutcome.returnedNonJson "t"))[1]?
      = some (extract_entities [("b", Value.str "y")]
          (fun _ _ => AttemptOutcome.returnedNonJson "t")).1 :=
  ⟨(c8_batch_order [[("a", Value.str "x")], [("b", Value.str "y")]]
      (fun _ _ _ => AttemptOutcome.returnedNonJson "t")).1,
   (c8_batch_order [[("a", Value.str "x")], [("b", Value.str "y")]]
      (fun _ _ _ => AttemptOutcome.returnedNonJson "t")).2 1 (by decide)⟩

/-- C10: for every input record and every service behaviour, the key set
of the returned record includes every key of the input record — no key is
ever removed — though the value under an existing key may be replaced. -/
theorem c10_keys_never_removed (entry : Record)
    (svc : String → Nat → AttemptOutcome) (k : String)
    (h : hasKey entry k = true) :
    hasKey (extract_entities entry svc).1 k = true := by
  rw [extract_entities_fst]
  exact hasKey_mergeRecords_left _ _ _ h

/-- C10 witness: key `"error"` of the input record survives the
exhausted-retries branch even though its value is replaced. -/
theorem c10_witness :
    hasKey (extract_entities [("error", Value.str "old")]
      (fun _ _ => AttemptOutcome.raisedError "too many requests 429")).1 "error" = true :=
  c10_keys_never_removed [("error", Value.str "old")]
    (fun _ _ => AttemptOutcome.raisedError "too many requests 429") "error" rfl
